import Mathlib

/-!
Shallow embedding of the call-signaling relay of the video-calling
application (`apps/calls/consumers.py` together with the participant rows
of `apps/calls/models.py`).

The embedding models:
  * Python JSON values (`PyJson`) as produced by `json.loads`;
  * the durable store (`DB`): `CallSession` rows (identified by their
    unique `call_id`) and `CallParticipant` rows;
  * the channel layer: named groups holding channel names, with
    `group_add` / `group_discard` / `group_send` semantics;
  * the consumer operations `connect`, `disconnect` and `receive` of
    `CallConsumer`, with the per-recipient event handlers
    (`webrtc_offer`, `webrtc_answer`, `ice_candidate`, `quality_change`,
    `screen_share_start/stop`, `user_joined`, `user_left`) folded into
    the fan-out of `group_send`.

Python exceptions that the source does not catch are modelled by
`Except PyError`; an inbound text frame is modelled as `Option PyJson`
(`none` = `json.loads` raised `JSONDecodeError`, `some v` = it parsed
to `v`).
-/

/-- A parsed JSON value, as `json.loads` yields it in Python. -/
inductive PyJson where
  | null : PyJson
  | bool (b : Bool) : PyJson
  | num (n : Int) : PyJson
  | str (s : String) : PyJson
  | arr (xs : List PyJson) : PyJson
  | obj (kvs : List (String × PyJson)) : PyJson

/-- Uncaught Python exceptions that the consumer code can raise. -/
inductive PyError where
  /-- `AttributeError`: `.get` called on a non-dict value. -/
  | attributeError : PyError
  /-- `TypeError`/`ValidationError`: an `AnonymousUser` used in an ORM query. -/
  | typeError : PyError
  /-- `MultipleObjectsReturned` from `.get`/`get_or_create`. -/
  | multipleObjectsReturned : PyError
deriving DecidableEq, Repr

/-- `dict.get` over the key-value list of a parsed JSON object. -/
def lookupKV (kvs : List (String × PyJson)) (k : String) : Option PyJson :=
  (kvs.find? (fun p => p.1 == k)).map (·.2)

/-- Is the parsed value a JSON object (a Python `dict`)? Only a `dict`
has the `.get` attribute used by `CallConsumer.receive`. -/
def PyJson.isObj : PyJson → Bool
  | .obj _ => true
  | _ => false

/-- Python truthiness of an optional JSON value (`not event.get(...)`
is the negation of this). -/
def pyTruthy : Option PyJson → Bool
  | none => false
  | some .null => false
  | some (.bool b) => b
  | some (.num n) => n != 0
  | some (.str s) => s ≠ ""
  | some (.arr xs) => !xs.isEmpty
  | some (.obj kvs) => !kvs.isEmpty

/-- Python `==` between an optional JSON value and a string
(`event['target_id'] == str(self.user.id)`). -/
def pyEqStr : Option PyJson → String → Bool
  | some (.str s), t => s == t
  | _, _ => false

/-- The principal behind a connection: a real user has a database id,
`AnonymousUser` has `id = None`. -/
structure UserRef where
  id : Option Nat
  username : String
deriving DecidableEq, Repr

/-- Django's `user.is_anonymous`. -/
def UserRef.is_anonymous (u : UserRef) : Bool := u.id.isNone

/-- Python `str(self.user.id)`. -/
def pyStr : Option Nat → String
  | none => "None"
  | some n => toString n

/-- A `CallParticipant` row: `(call_session, user)` key, `is_active`
flag, optional `left_at` timestamp and the `joined_at` timestamp. -/
structure Participant where
  callId : String
  userId : Nat
  is_active : Bool
  left_at : Option Nat
  joined_at : Nat
deriving DecidableEq, Repr

/-- The durable store: the set of existing `CallSession.call_id`s and
the `CallParticipant` rows. -/
structure DB where
  sessions : List String
  participants : List Participant
deriving DecidableEq, Repr

/-- Does the row belong to `(callId, userId)`? -/
def rowKey (callId : String) (userId : Nat) (p : Participant) : Bool :=
  p.callId == callId && p.userId == userId

/-- Number of `CallParticipant` rows for `(callId, userId)`. -/
def countRows (db : DB) (callId : String) (userId : Nat) : Nat :=
  (db.participants.filter (rowKey callId userId)).length

/-- The `CallParticipant` row for `(callId, userId)`, when one exists. -/
def getParticipant (db : DB) (callId : String) (userId : Nat) : Option Participant :=
  db.participants.find? (rowKey callId userId)

/-- `participant.is_active = b; participant.save()` — the saved row,
located by its `(call_session, user)` key, gets the new flag; every
other row is untouched.  `left_at` and `joined_at` are not written. -/
def updActive (b : Bool) (callId : String) (uid : Nat) (p : Participant) : Participant :=
  if rowKey callId uid p then { p with is_active := b } else p

/-- `CallConsumer.add_participant_to_call`: look up the `CallSession`
by `call_id` (a missing session is swallowed by `except ... pass`),
then `get_or_create` the participant row with default
`is_active = True`; a pre-existing row gets `is_active = True` and is
saved — its `left_at` is not touched.  Querying with an anonymous
principal raises; more than one matching row raises
`MultipleObjectsReturned` (neither is caught by the `except`). -/
def add_participant_to_call (db : DB) (callId : String) (u : UserRef) (now : Nat) :
    Except PyError DB :=
  match u.id with
  | none => .error .typeError
  | some uid =>
    if db.sessions.contains callId then
      match db.participants.filter (rowKey callId uid) with
      | [] => .ok { db with participants :=
          db.participants ++ [⟨callId, uid, true, none, now⟩] }
      | [_] => .ok { db with participants :=
          db.participants.map (updActive true callId uid) }
      | _ => .error .multipleObjectsReturned
    else
      .ok db

/-- `CallConsumer.remove_participant_from_call`: fetch the row for
`(call_id, user)` (`DoesNotExist` is swallowed by `except ... pass`),
set `is_active = False` and save — `left_at` is not touched and the
function has no notion of the current time.  Querying with an
anonymous principal raises; more than one matching row raises
`MultipleObjectsReturned` (neither is caught). -/
def remove_participant_from_call (db : DB) (callId : String) (u : UserRef) :
    Except PyError DB :=
  match u.id with
  | none => .error .typeError
  | some uid =>
    match db.participants.filter (rowKey callId uid) with
    | [] => .ok db
    | [_] => .ok { db with participants :=
        db.participants.map (updActive false callId uid) }
    | _ => .error .multipleObjectsReturned

/-- A live consumer: its channel name, its principal and the `call_id`
taken from the URL route. -/
structure Conn where
  channelName : String
  user : UserRef
  callId : String
deriving DecidableEq, Repr

/-- `f'call_{call_id}'`. -/
def callGroupName (callId : String) : String := "call_" ++ callId

/-- A channel-layer event, as placed on a group by `group_send`.
Payload fields hold exactly what `data.get(...)` returned on the
sender's side (`none` = Python `None`). -/
inductive GEvent where
  | user_joined (userId username : String)
  | user_left (userId username : String)
  | webrtc_offer (offer : Option PyJson) (senderId : String) (targetId : Option PyJson)
  | webrtc_answer (answer : Option PyJson) (senderId : String) (targetId : Option PyJson)
  | ice_candidate (candidate : Option PyJson) (senderId : String) (targetId : Option PyJson)
  | quality_change (quality : Option PyJson) (senderId : String)
  | screen_share_start (senderId username : String)
  | screen_share_stop (senderId username : String)

/-- A message written to one websocket by `self.send`.  The
`list_members` constructor encodes the snapshot message the
specification describes (a list of user-id/channel pairs); it exists
so that statements about such snapshots can be made — the relay code
itself never produces it. -/
inductive OutMsg where
  | user_joined (userId username : String)
  | user_left (userId username : String)
  | webrtc_offer (offer : Option PyJson) (senderId : String)
  | webrtc_answer (answer : Option PyJson) (senderId : String)
  | ice_candidate (candidate : Option PyJson) (senderId : String)
  | quality_change (quality : Option PyJson) (senderId : String)
  | screen_share_start (senderId username : String)
  | screen_share_stop (senderId username : String)
  | list_members (members : List (String × String))
  | errorMsg (message : String)

/-- The per-recipient group-event handlers of `CallConsumer`
(`user_joined` … `screen_share_stop`): given the recipient's principal
`u`, which message (if any) does the handler write to the socket. -/
def handleEvent (u : UserRef) : GEvent → Option OutMsg
  | .user_joined uid un => some (.user_joined uid un)
  | .user_left uid un => some (.user_left uid un)
  | .webrtc_offer off sid tgt =>
      if pyEqStr tgt (pyStr u.id) || !pyTruthy tgt then
        some (.webrtc_offer off sid)
      else none
  | .webrtc_answer ans sid tgt =>
      if pyEqStr tgt (pyStr u.id) then some (.webrtc_answer ans sid) else none
  | .ice_candidate cand sid tgt =>
      if pyEqStr tgt (pyStr u.id) || !pyTruthy tgt then
        some (.ice_candidate cand sid)
      else none
  | .quality_change q sid => some (.quality_change q sid)
  | .screen_share_start sid un => some (.screen_share_start sid un)
  | .screen_share_stop sid un => some (.screen_share_stop sid un)

/-- Channel-layer groups: group name to member channel names. -/
abbrev Groups := List (String × List String)

/-- The member channels of a group (no group means no members). -/
def groupChans (gs : Groups) (g : String) : List String :=
  ((gs.find? (fun p => p.1 == g)).map (·.2)).getD []

/-- `channel_layer.group_add`: create the group lazily; adding an
already-present channel is idempotent. -/
def groupAdd (gs : Groups) (g ch : String) : Groups :=
  match gs.find? (fun p => p.1 == g) with
  | none => gs ++ [(g, [ch])]
  | some _ => gs.map (fun p =>
      if p.1 == g then (p.1, if p.2.contains ch then p.2 else p.2 ++ [ch]) else p)

/-- `channel_layer.group_discard`: remove the channel; a missing
channel or group is tolerated. -/
def groupDiscard (gs : Groups) (g ch : String) : Groups :=
  gs.map (fun p => if p.1 == g then (p.1, p.2.filter (fun c => c != ch)) else p)

/-- The whole relay state: durable store, channel-layer groups, the
live consumers (to resolve a channel name to its principal during
fan-out), and the observable transcript: every socket write
(`sent`), every `accept` and every `close` (with the close code
passed, `none` = no code argument). -/
structure World where
  db : DB
  groups : Groups
  conns : List Conn
  sent : List (String × OutMsg)
  accepted : List String
  closed : List (String × Option Nat)

/-- Resolve a channel name to the principal of its consumer. -/
def resolveUser (conns : List Conn) (ch : String) : Option UserRef :=
  (conns.find? (fun d => d.channelName == ch)).map (·.user)

/-- The socket writes produced by delivering one group event to a list
of channels: each channel with a live consumer runs its handler. -/
def fanout (conns : List Conn) (chans : List String) (e : GEvent) :
    List (String × OutMsg) :=
  chans.filterMap (fun ch =>
    match resolveUser conns ch with
    | none => none
    | some u => (handleEvent u e).map (fun m => (ch, m)))

/-- `channel_layer.group_send`: deliver the event to every channel in
the group; each member consumer's handler decides what (if anything)
reaches that member's socket. -/
def groupSend (w : World) (g : String) (e : GEvent) : World :=
  { w with sent := w.sent ++ fanout w.conns (groupChans w.groups g) e }

/-- `CallConsumer.connect`: the consumer comes into existence with the
scope's user and call id; an anonymous principal is closed at once
with `self.close()` — no code argument.  Otherwise: `group_add`,
`accept`, `add_participant_to_call`, then broadcast `user_joined` to
the call group (which the fresh connection itself is already in). -/
def connect (w : World) (c : Conn) (now : Nat) : Except PyError World :=
  let w0 : World := { w with conns := w.conns ++ [c] }
  if c.user.is_anonymous then
    .ok { w0 with closed := w0.closed ++ [(c.channelName, none)] }
  else
    let w1 : World := { w0 with
      groups := groupAdd w0.groups (callGroupName c.callId) c.channelName }
    let w2 : World := { w1 with accepted := w1.accepted ++ [c.channelName] }
    match add_participant_to_call w2.db c.callId c.user now with
    | .error e => .error e
    | .ok db =>
      .ok (groupSend { w2 with db := db } (callGroupName c.callId)
        (.user_joined (pyStr c.user.id) c.user.username))

/-- `CallConsumer.disconnect`: `remove_participant_from_call` (an
exception there aborts the rest), broadcast `user_left` to the call
group, then `group_discard` this channel. -/
def disconnect (w : World) (c : Conn) : Except PyError World :=
  match remove_participant_from_call w.db c.callId c.user with
  | .error e => .error e
  | .ok db =>
    let w1 := groupSend { w with db := db } (callGroupName c.callId)
      (.user_left (pyStr c.user.id) c.user.username)
    .ok { w1 with groups := groupDiscard w1.groups (callGroupName c.callId) c.channelName }

/-- `CallConsumer.receive`: `json.loads` failure (`none`) is caught
and answered with a single error reply; on a parsed value,
`data.get('type')` raises `AttributeError` for a non-dict (uncaught —
only `JSONDecodeError` is handled); a dict dispatches on its `type`
value to the `handle_*` methods, each of which is one `group_send`;
an unrecognized or missing type falls through silently. -/
def receive (w : World) (c : Conn) (textData : Option PyJson) : Except PyError World :=
  match textData with
  | none =>
    .ok { w with sent := w.sent ++ [(c.channelName, .errorMsg "Invalid JSON data")] }
  | some data =>
    match data with
    | .obj kvs =>
      let g := callGroupName c.callId
      let mt := lookupKV kvs "type"
      if pyEqStr mt "offer" then
        .ok (groupSend w g (.webrtc_offer (lookupKV kvs "offer")
          (pyStr c.user.id) (lookupKV kvs "target_id")))
      else if pyEqStr mt "answer" then
        .ok (groupSend w g (.webrtc_answer (lookupKV kvs "answer")
          (pyStr c.user.id) (lookupKV kvs "target_id")))
      else if pyEqStr mt "ice_candidate" then
        .ok (groupSend w g (.ice_candidate (lookupKV kvs "candidate")
          (pyStr c.user.id) (lookupKV kvs "target_id")))
      else if pyEqStr mt "quality_change" then
        .ok (groupSend w g (.quality_change (lookupKV kvs "quality")
          (pyStr c.user.id)))
      else if pyEqStr mt "screen_share_start" then
        .ok (groupSend w g (.screen_share_start (pyStr c.user.id) c.user.username))
      else if pyEqStr mt "screen_share_stop" then
        .ok (groupSend w g (.screen_share_stop (pyStr c.user.id) c.user.username))
      else
        .ok w
    | _ => .error .attributeError

/-- The text frame `{"type": "offer", "offer": ..., "target_id": ...}`:
with `tgt = none` the `target_id` key is absent altogether, otherwise
it is present with the given JSON value. -/
def mkOfferFrame (off : PyJson) (tgt : Option PyJson) : PyJson :=
  .obj (("type", .str "offer") :: ("offer", off) ::
    (match tgt with | none => [] | some t => [("target_id", t)]))

/-- The text frame `{"type": "quality_change", "quality": ...}`. -/
def mkQualityFrame (q : PyJson) : PyJson :=
  .obj [("type", .str "quality_change"), ("quality", q)]

/-- The socket transcript of an operation's outcome (an uncaught
exception writes nothing). -/
def sentAfter : Except PyError World → List (String × OutMsg)
  | .ok w => w.sent
  | .error _ => []

/-- Did the operation finish without an uncaught exception? -/
def okAfter : Except PyError World → Bool
  | .ok _ => true
  | .error _ => false

/-- Evaluate a boolean observation on the outcome's world (false on an
uncaught exception). -/
def afterOk (r : Except PyError World) (f : World → Bool) : Bool :=
  match r with
  | .ok w => f w
  | .error _ => false

/-- Is the message a relayed WebRTC offer? -/
def isOfferMsg : OutMsg → Bool
  | .webrtc_offer _ _ => true
  | _ => false

/-- Is the message a relayed quality change? -/
def isQualityMsg : OutMsg → Bool
  | .quality_change _ _ => true
  | _ => false

/-- Is the message a leave notification? -/
def isUserLeftMsg : OutMsg → Bool
  | .user_left _ _ => true
  | _ => false

/-- Is the message a join notification? -/
def isUserJoinedMsg : OutMsg → Bool
  | .user_joined _ _ => true
  | _ => false

/-- Is the message a `list_members` snapshot? -/
def isListMembersMsg : OutMsg → Bool
  | .list_members _ => true
  | _ => false

/-- Concrete principals for the scenario worlds. -/
def alice : UserRef := ⟨some 1, "alice"⟩

def bob : UserRef := ⟨some 2, "bob"⟩

def carol : UserRef := ⟨some 3, "carol"⟩

/-- Alice's connection to call `c1`. -/
def connA : Conn := ⟨"chA", alice, "c1"⟩

/-- A second device of Alice's in the same call. -/
def connA2 : Conn := ⟨"chA2", alice, "c1"⟩

def connB : Conn := ⟨"chB", bob, "c1"⟩

def connC : Conn := ⟨"chC", carol, "c1"⟩

/-- Call `c1` with Alice and Bob connected and active. -/
def twoWorld : World :=
  { db := ⟨["c1"], [⟨"c1", 1, true, none, 0⟩, ⟨"c1", 2, true, none, 0⟩]⟩
    groups := [("call_c1", ["chA", "chB"])]
    conns := [connA, connB]
    sent := []
    accepted := ["chA", "chB"]
    closed := [] }

/-- Call `c1` with Alice, Bob and Carol connected and active. -/
def threeWorld : World :=
  { db := ⟨["c1"], [⟨"c1", 1, true, none, 0⟩, ⟨"c1", 2, true, none, 0⟩,
      ⟨"c1", 3, true, none, 0⟩]⟩
    groups := [("call_c1", ["chA", "chB", "chC"])]
    conns := [connA, connB, connC]
    sent := []
    accepted := ["chA", "chB", "chC"]
    closed := [] }

/-- Call `c1` with only Bob present — the state just before Alice's
admission. -/
def preJoinWorld : World :=
  { db := ⟨["c1"], [⟨"c1", 2, true, none, 0⟩]⟩
    groups := [("call_c1", ["chB"])]
    conns := [connB]
    sent := []
    accepted := ["chB"]
    closed := [] }

/-- Call `c1` with Alice connected on two devices, one participant row. -/
def multiDeviceWorld : World :=
  { db := ⟨["c1"], [⟨"c1", 1, true, none, 0⟩]⟩
    groups := [("call_c1", ["chA", "chA2"])]
    conns := [connA, connA2]
    sent := []
    accepted := ["chA", "chA2"]
    closed := [] }

/-- A connection attempt by Alice addressed to the unknown call id
`nope` (the store only knows `c1`). -/
def connUnknown : Conn := ⟨"chX", alice, "nope"⟩

/-- An anonymous connection attempt to call `c1`. -/
def connAnon : Conn := ⟨"chZ", ⟨none, ""⟩, "c1"⟩

/-- The socket transcript after Alice's connection in `twoWorld` is
torn down twice (the transport signalling disconnect twice). -/
def twiceDisconnected : List (String × OutMsg) :=
  match disconnect twoWorld connA with
  | .ok w1 =>
    match disconnect w1 connA with
    | .ok w2 => w2.sent
    | .error _ => []
  | .error _ => []

/-- A store where Alice's participant row in `c1` is inactive with a
recorded left-timestamp — the state just before she rejoins. -/
def dbLeft : DB := ⟨["c1"], [⟨"c1", 1, false, some 5, 0⟩]⟩

/-! Helper lemmas about rows, row updates and fan-out. -/

theorem rowKey_updActive (b : Bool) (C : String) (uid : Nat) (p : Participant) :
    rowKey C uid (updActive b C uid p) = rowKey C uid p := by
  unfold updActive
  split
  · rfl
  · rfl

theorem comp_rowKey_updActive (b : Bool) (C : String) (uid : Nat) :
    (rowKey C uid ∘ updActive b C uid) = rowKey C uid := by
  funext p
  exact rowKey_updActive b C uid p

theorem filter_map_updActive (b : Bool) (C : String) (uid : Nat) (l : List Participant) :
    (l.map (updActive b C uid)).filter (rowKey C uid) =
      (l.filter (rowKey C uid)).map (updActive b C uid) := by
  rw [List.filter_map, comp_rowKey_updActive]

theorem find?_map_updActive (b : Bool) (C : String) (uid : Nat) (l : List Participant) :
    (l.map (updActive b C uid)).find? (rowKey C uid) =
      (l.find? (rowKey C uid)).map (updActive b C uid) := by
  rw [List.find?_map, comp_rowKey_updActive]

theorem find?_eq_head?_filter {α : Type} (p : α → Bool) (l : List α) :
    l.find? p = (l.filter p).head? := by
  induction l with
  | nil => rfl
  | cons a t ih =>
    by_cases h : p a = true
    · rw [List.find?_cons_of_pos t h, List.filter_cons_of_pos h, List.head?_cons]
    · rw [List.find?_cons_of_neg t h, List.filter_cons_of_neg h, ih]

theorem updActive_fixed (b : Bool) (C : String) (uid : Nat) (p : Participant)
    (h : p.is_active = b) : updActive b C uid p = p := by
  unfold updActive
  by_cases hk : rowKey C uid p = true
  · simp only [hk, if_true]
    cases p
    cases h
    rfl
  · simp only [Bool.not_eq_true] at hk
    simp [hk]

theorem map_updActive_id (b : Bool) (C : String) (uid : Nat) (l : List Participant)
    (h : ∀ p ∈ l, rowKey C uid p = true → p.is_active = b) :
    l.map (updActive b C uid) = l := by
  induction l with
  | nil => rfl
  | cons a t ih =>
    have ha : updActive b C uid a = a := by
      by_cases hk : rowKey C uid a = true
      · exact updActive_fixed b C uid a (h a (List.mem_cons_self a t) hk)
      · simp only [Bool.not_eq_true] at hk
        simp [updActive, hk]
    simp only [List.map_cons, ha,
      ih (fun p hp hkp => h p (List.mem_cons_of_mem a hp) hkp)]

theorem countRows_map_updActive (b : Bool) (C : String) (uid : Nat) (db : DB) :
    countRows { db with participants := db.participants.map (updActive b C uid) } C uid =
      countRows db C uid := by
  unfold countRows
  simp only [filter_map_updActive, List.length_map]

theorem getParticipant_map_updActive (b : Bool) (C : String) (uid : Nat) (db : DB) :
    getParticipant { db with participants := db.participants.map (updActive b C uid) } C uid =
      (getParticipant db C uid).map (updActive b C uid) := by
  unfold getParticipant
  simp only [find?_map_updActive]

theorem remove_ok_of_le_one (db : DB) (C : String) (u : UserRef) (uid : Nat)
    (h : u.id = some uid) (hc : countRows db C uid ≤ 1) :
    ∃ db', remove_participant_from_call db C u = .ok db' ∧
      countRows db' C uid = countRows db C uid := by
  cases hf : db.participants.filter (rowKey C uid) with
  | nil =>
    exact ⟨db, by simp [remove_participant_from_call, h, hf], rfl⟩
  | cons q t =>
    cases t with
    | nil =>
      exact ⟨{ db with participants := db.participants.map (updActive false C uid) },
        by simp [remove_participant_from_call, h, hf],
        countRows_map_updActive false C uid db⟩
    | cons q2 t2 =>
      simp [countRows, hf] at hc

theorem add_ok_of_le_one (db : DB) (C : String) (u : UserRef) (uid now : Nat)
    (h : u.id = some uid) (hc : countRows db C uid ≤ 1) :
    ∃ db', add_participant_to_call db C u now = .ok db' := by
  by_cases hs : db.sessions.contains C = true
  · have hs' : C ∈ db.sessions := by simpa using hs
    cases hf : db.participants.filter (rowKey C uid) with
    | nil =>
      exact ⟨{ db with participants :=
        db.participants ++ [⟨C, uid, true, none, now⟩] },
        by simp [add_participant_to_call, h, hs', hf]⟩
    | cons q t =>
      cases t with
      | nil =>
        exact ⟨{ db with participants := db.participants.map (updActive true C uid) },
          by simp [add_participant_to_call, h, hs', hf]⟩
      | cons q2 t2 =>
        simp [countRows, hf] at hc
  · simp only [Bool.not_eq_true] at hs
    have hs' : C ∉ db.sessions := by simpa using hs
    exact ⟨db, by simp [add_participant_to_call, h, hs']⟩

theorem fanout_mem (conns : List Conn) (chans : List String) (e : GEvent)
    (ch : String) (u : UserRef) (m : OutMsg)
    (hch : ch ∈ chans) (hu : resolveUser conns ch = some u)
    (hm : handleEvent u e = some m) :
    (ch, m) ∈ fanout conns chans e := by
  refine List.mem_filterMap.mpr ⟨ch, hch, ?_⟩
  rw [hu]
  simp [hm]

theorem fanout_user_joined_snd (conns : List Conn) (chans : List String)
    (a b : String) (x : String × OutMsg)
    (hx : x ∈ fanout conns chans (.user_joined a b)) :
    x.2 = OutMsg.user_joined a b := by
  obtain ⟨ch, _, hf⟩ := List.mem_filterMap.mp hx
  revert hf
  cases hru : resolveUser conns ch with
  | none => intro hf; simp at hf
  | some u =>
    intro hf
    simp only [handleEvent, Option.map_some'] at hf
    cases hf
    rfl

theorem fst_groupAdd_entry (g ch : String) (p : String × List String) :
    ((if p.1 == g then (p.1, if p.2.contains ch then p.2 else p.2 ++ [ch]) else p)).1 = p.1 := by
  by_cases h : p.1 == g
  · simp [h]
  · simp [h]

theorem groupChans_groupAdd_self (gs : Groups) (g ch : String) :
    ch ∈ groupChans (groupAdd gs g ch) g := by
  unfold groupAdd
  cases hf : gs.find? (fun p => p.1 == g) with
  | none =>
    unfold groupChans
    rw [List.find?_append]
    have hn : gs.find? (fun (p : String × List String) => p.1 == g) = none := hf
    rw [hn]
    simp
  | some q =>
    unfold groupChans
    rw [List.find?_map]
    have hcomp : ((fun (p : String × List String) => p.1 == g) ∘
        (fun p => if p.1 == g then (p.1, if p.2.contains ch then p.2 else p.2 ++ [ch]) else p)) =
        (fun (p : String × List String) => p.1 == g) := by
      funext p
      simp only [Function.comp_apply, fst_groupAdd_entry]
    rw [hcomp, hf]
    have hq : (q.1 == g) = true := by
      have := List.find?_some hf
      simpa using this
    simp only [Option.map_some', hq, if_true, Option.getD_some]
    by_cases hc : ch ∈ q.2
    · simp [hc]
    · simp [hc]

theorem groupChans_groupDiscard (gs : Groups) (g ch : String) :
    groupChans (groupDiscard gs g ch) g = (groupChans gs g).filter (fun c => c != ch) := by
  unfold groupDiscard groupChans
  rw [List.find?_map]
  have hcomp : ((fun (p : String × List String) => p.1 == g) ∘
      (fun p => if p.1 == g then (p.1, p.2.filter (fun c => c != ch)) else p)) =
      (fun (p : String × List String) => p.1 == g) := by
    funext p
    by_cases h : p.1 = g
    · simp [h]
    · simp [h]
  rw [hcomp]
  cases hf : gs.find? (fun p => p.1 == g) with
  | none => rfl
  | some q =>
    have hq : q.1 = g := by
      have := List.find?_some hf
      simpa using this
    simp [hq]

theorem connect_eq (w : World) (c : Conn) (now : Nat) (db' : DB)
    (hna : c.user.is_anonymous = false)
    (hok : add_participant_to_call w.db c.callId c.user now = .ok db') :
    connect w c now = .ok { w with
      conns := w.conns ++ [c]
      groups := groupAdd w.groups (callGroupName c.callId) c.channelName
      accepted := w.accepted ++ [c.channelName]
      db := db'
      sent := w.sent ++ fanout (w.conns ++ [c])
        (groupChans (groupAdd w.groups (callGroupName c.callId) c.channelName)
          (callGroupName c.callId))
        (.user_joined (pyStr c.user.id) c.user.username) } := by
  simp [connect, hna, hok, groupSend]

theorem disconnect_eq (w : World) (c : Conn) (db' : DB)
    (hok : remove_participant_from_call w.db c.callId c.user = .ok db') :
    disconnect w c = .ok { w with
      db := db'
      sent := w.sent ++ fanout w.conns (groupChans w.groups (callGroupName c.callId))
        (.user_left (pyStr c.user.id) c.user.username)
      groups := groupDiscard w.groups (callGroupName c.callId) c.channelName } := by
  simp [disconnect, hok, groupSend]

theorem receive_offer_frame (w : World) (c : Conn) (off : PyJson) (tgt : Option PyJson) :
    receive w c (some (mkOfferFrame off tgt)) =
      .ok (groupSend w (callGroupName c.callId)
        (.webrtc_offer (some off) (pyStr c.user.id) tgt)) := by
  cases tgt <;> rfl

/-! Claim theorems. -/

/-- C1 (amended): an `offer` sent without a truthy `target_id` by a
sender in a call is delivered to every live connection in that call's
group — including the sender's own connection(s), since the
`webrtc_offer` handler's `not event.get('target_id')` test passes for
every recipient and `group_send` covers the sender's channel too. -/
theorem untargeted_offer_reaches_every_group_member :
    ∀ (w : World) (c : Conn) (off : PyJson) (tgt : Option PyJson),
    pyTruthy tgt = false →
    ∃ l, receive w c (some (mkOfferFrame off tgt)) = .ok { w with sent := w.sent ++ l } ∧
      ∀ ch u, ch ∈ groupChans w.groups (callGroupName c.callId) →
        resolveUser w.conns ch = some u →
        (ch, OutMsg.webrtc_offer (some off) (pyStr c.user.id)) ∈ l := by
  intro w c off tgt htgt
  refine ⟨fanout w.conns (groupChans w.groups (callGroupName c.callId))
    (.webrtc_offer (some off) (pyStr c.user.id) tgt), ?_, ?_⟩
  · rw [receive_offer_frame]
    rfl
  · intro ch u hch hu
    refine fanout_mem _ _ _ _ _ _ hch hu ?_
    simp [handleEvent, htgt]

/-- C1 witness: in the two-member call, Alice's untargeted offer
reaches every group member. -/
theorem untargeted_offer_reaches_every_group_member_witness :
    pyTruthy none = false ∧
    ∃ l, receive twoWorld connA (some (mkOfferFrame (.str "sdp") none)) =
      .ok { twoWorld with sent := twoWorld.sent ++ l } ∧
      ∀ ch u, ch ∈ groupChans twoWorld.groups (callGroupName connA.callId) →
        resolveUser twoWorld.conns ch = some u →
        (ch, OutMsg.webrtc_offer (some (.str "sdp")) (pyStr connA.user.id)) ∈ l :=
  ⟨rfl, untargeted_offer_reaches_every_group_member twoWorld connA (.str "sdp") none rfl⟩

/-- C1 counterexample: the claim says the untargeted offer is never
delivered back to the sender, yet Alice's own channel `chA` receives
exactly one relayed offer. -/
theorem untargeted_offer_echoed_to_sender :
    ((sentAfter (receive twoWorld connA (some (mkOfferFrame (.str "sdp") none)))).filter
      (fun (x : String × OutMsg) => x.1 == "chA" && isOfferMsg x.2)).length = 1 := by
  decide

/-- C3 (amended): a frame that fails JSON parsing gets exactly one
error reply and nothing else changes; but a frame that parses to a
JSON value that is not an object makes `receive` raise an uncaught
`AttributeError` (only `json.JSONDecodeError` is handled) and no
reply is sent. -/
theorem receive_error_reply_only_for_unparseable :
    ∀ (w : World) (c : Conn) (v : PyJson),
    receive w c none =
      .ok { w with sent := w.sent ++ [(c.channelName, .errorMsg "Invalid JSON data")] } ∧
    (v.isObj = false → receive w c (some v) = .error .attributeError) := by
  intro w c v
  refine ⟨rfl, ?_⟩
  intro h
  cases v with
  | obj kvs => simp [PyJson.isObj] at h
  | null => rfl
  | bool b => rfl
  | num n => rfl
  | str s => rfl
  | arr xs => rfl

/-- C3 witness: the unparseable frame gets the single error reply, and
the parsed non-object `123` raises. -/
theorem receive_error_reply_only_for_unparseable_witness :
    (PyJson.num 123).isObj = false ∧
    receive twoWorld connA (some (.num 123)) = .error .attributeError :=
  ⟨rfl, (receive_error_reply_only_for_unparseable twoWorld connA (.num 123)).2 rfl⟩

/-- C3 counterexample: the claim says every frame failing to parse as
the expected envelope — including valid JSON that is not an object —
gets one error reply and never raises; on the valid JSON text `123`
the receive operation raises `AttributeError` and writes nothing. -/
theorem receive_raises_on_json_non_object :
    receive twoWorld connA (some (.num 123)) = .error .attributeError ∧
    sentAfter (receive twoWorld connA (some (.num 123))) = [] :=
  ⟨rfl, rfl⟩

/-- C7: an anonymous principal is closed straight away — but by
`self.close()` with no close code at all (`none`, i.e. the transport
default), not a distinct policy-violation code; no accept, no group
membership, no broadcast and no store write happen during `connect`,
and the later teardown aborts with an uncaught error before its
broadcast because the participant query cannot use an anonymous
principal. -/
theorem anonymous_connect_closes_without_code :
    ∀ (w : World) (c : Conn) (now : Nat), c.user.id = none →
    connect w c now = .ok { w with
      conns := w.conns ++ [c],
      closed := w.closed ++ [(c.channelName, none)] } ∧
    disconnect w c = .error .typeError := by
  intro w c now h
  have hna : c.user.is_anonymous = true := by simp [UserRef.is_anonymous, h]
  constructor
  · simp [connect, hna]
  · simp [disconnect, remove_participant_from_call, h]

/-- C7 witness: the anonymous connection attempt on the two-member
call. -/
theorem anonymous_connect_closes_without_code_witness :
    connAnon.user.id = none ∧
    (connect twoWorld connAnon 7 = .ok { twoWorld with
      conns := twoWorld.conns ++ [connAnon],
      closed := twoWorld.closed ++ [(connAnon.channelName, none)] } ∧
    disconnect twoWorld connAnon = .error .typeError) :=
  ⟨rfl, anonymous_connect_closes_without_code twoWorld connAnon 7 rfl⟩

/-- C9 (amended): in the three-member call, Alice's `quality_change`
with payload `q` is delivered as `{quality_change, sender_id 1, q}` to
Bob and Carol — and to Alice's own connection as well, because the
`quality_change` handler relays unconditionally to every group
member. -/
theorem quality_change_broadcast_includes_sender :
    ∀ (q : PyJson), receive threeWorld connA (some (mkQualityFrame q)) =
      .ok { threeWorld with sent :=
        [("chA", .quality_change (some q) "1"),
         ("chB", .quality_change (some q) "1"),
         ("chC", .quality_change (some q) "1")] } := by
  intro q
  rfl

/-- C9 counterexample: the claim says the sender's connection receives
nothing, yet Alice's channel `chA` receives exactly one relayed
`quality_change`. -/
theorem quality_change_echoed_to_sender :
    ((sentAfter (receive threeWorld connA (some (mkQualityFrame (.str "high"))))).filter
      (fun (x : String × OutMsg) => x.1 == "chA" && isQualityMsg x.2)).length = 1 := by
  decide

/-- C2 (amended): completing admission sends no `list_members`
snapshot at all — `connect` produces only `user_joined` join
notifications, which go to the whole group (the newly admitted
connection, already in the group, receives one too). -/
theorem admission_sends_join_only_no_snapshot :
    ∀ (w : World) (c : Conn) (now uid : Nat), c.user.id = some uid →
    countRows w.db c.callId uid ≤ 1 →
    ∃ w' l, connect w c now = .ok w' ∧ w'.sent = w.sent ++ l ∧
      (∀ x ∈ l, x.2 = OutMsg.user_joined (pyStr c.user.id) c.user.username) ∧
      (∀ ch ms, (ch, OutMsg.list_members ms) ∈ l → False) := by
  intro w c now uid h hc
  obtain ⟨db', hok⟩ := add_ok_of_le_one w.db c.callId c.user uid now h hc
  have hna : c.user.is_anonymous = false := by simp [UserRef.is_anonymous, h]
  refine ⟨_, _, connect_eq w c now db' hna hok, rfl, ?_, ?_⟩
  · intro x hx
    exact fanout_user_joined_snd _ _ _ _ x hx
  · intro ch ms hmem
    have := fanout_user_joined_snd _ _ _ _ _ hmem
    simp at this

/-- C2 witness: Alice's admission to the call where only Bob is
present. -/
theorem admission_sends_join_only_no_snapshot_witness :
    connA.user.id = some 1 ∧ countRows preJoinWorld.db connA.callId 1 ≤ 1 ∧
    (∃ w' l, connect preJoinWorld connA 5 = .ok w' ∧
      w'.sent = preJoinWorld.sent ++ l ∧
      (∀ x ∈ l, x.2 = OutMsg.user_joined (pyStr connA.user.id) connA.user.username) ∧
      (∀ ch ms, (ch, OutMsg.list_members ms) ∈ l → False)) :=
  ⟨rfl, by decide,
    admission_sends_join_only_no_snapshot preJoinWorld connA 5 1 rfl (by decide)⟩

/-- C2 counterexample: the claim says the newly admitted connection
receives exactly one `list_members` snapshot; Alice's admission
completes, she receives a join notification, but zero `list_members`
messages are ever sent to her. -/
theorem admission_sends_zero_list_members :
    okAfter (connect preJoinWorld connA 5) = true ∧
    ((sentAfter (connect preJoinWorld connA 5)).filter
      (fun (x : String × OutMsg) => x.1 == "chA" && isListMembersMsg x.2)).length = 0 ∧
    ((sentAfter (connect preJoinWorld connA 5)).filter
      (fun (x : String × OutMsg) => x.1 == "chA" && isUserJoinedMsg x.2)).length = 1 := by
  refine ⟨by decide, by decide, by decide⟩

/-- C6 (amended): a connection attempt addressed to a call id unknown
to the store is not refused — the connection is accepted, joins the
call's fan-out group and is never closed; only the durable store is
left untouched (no phantom participant row). -/
theorem unknown_call_admitted_without_row :
    ∀ (w : World) (c : Conn) (now uid : Nat), c.user.id = some uid →
    w.db.sessions.contains c.callId = false →
    ∃ w', connect w c now = .ok w' ∧
      c.channelName ∈ w'.accepted ∧
      c.channelName ∈ groupChans w'.groups (callGroupName c.callId) ∧
      w'.db = w.db ∧ w'.closed = w.closed := by
  intro w c now uid h hs
  have hna : c.user.is_anonymous = false := by simp [UserRef.is_anonymous, h]
  have hok : add_participant_to_call w.db c.callId c.user now = .ok w.db := by
    have hs' : c.callId ∉ w.db.sessions := by simpa using hs
    simp [add_participant_to_call, h, hs']
  refine ⟨_, connect_eq w c now w.db hna hok, ?_, ?_, rfl, rfl⟩
  · exact List.mem_append_right _ (List.mem_singleton_self _)
  · exact groupChans_groupAdd_self _ _ _

/-- C6 witness: Alice connecting to the unknown call id `nope`. -/
theorem unknown_call_admitted_without_row_witness :
    connUnknown.user.id = some 1 ∧
    preJoinWorld.db.sessions.contains connUnknown.callId = false ∧
    (∃ w', connect preJoinWorld connUnknown 5 = .ok w' ∧
      connUnknown.channelName ∈ w'.accepted ∧
      connUnknown.channelName ∈ groupChans w'.groups (callGroupName connUnknown.callId) ∧
      w'.db = preJoinWorld.db ∧ w'.closed = preJoinWorld.closed) :=
  ⟨rfl, by decide,
    unknown_call_admitted_without_row preJoinWorld connUnknown 5 1 rfl (by decide)⟩

/-- C6 counterexample: the claim says admission to an unknown call id
is refused by closing the connection and the connection does not join
the fan-out group; Alice's attempt on call id `nope` is accepted,
her channel is in the group `call_nope`, and nothing is closed. -/
theorem unknown_call_not_refused :
    afterOk (connect preJoinWorld connUnknown 5)
      (fun w => w.accepted.contains "chX" &&
        (groupChans w.groups "call_nope").contains "chX" && w.closed.isEmpty) = true := by
  decide

theorem getParticipant_of_count_one (db : DB) (C : String) (uid : Nat)
    (hc : countRows db C uid = 1) :
    ∃ q, db.participants.filter (rowKey C uid) = [q] ∧
      getParticipant db C uid = some q ∧ rowKey C uid q = true := by
  cases hf : db.participants.filter (rowKey C uid) with
  | nil => simp [countRows, hf] at hc
  | cons q t =>
    cases t with
    | nil =>
      refine ⟨q, rfl, ?_, ?_⟩
      · unfold getParticipant
        rw [find?_eq_head?_filter, hf]
        rfl
      · have : q ∈ db.participants.filter (rowKey C uid) := by
          rw [hf]
          exact List.mem_singleton_self q
        exact (List.mem_filter.mp this).2
    | cons q2 t2 => simp [countRows, hf] at hc

theorem add_when_absent (db : DB) (C : String) (u : UserRef) (uid now : Nat)
    (h : u.id = some uid) (hs' : C ∈ db.sessions) (hc : countRows db C uid = 0) :
    add_participant_to_call db C u now =
      .ok { db with participants := db.participants ++ [⟨C, uid, true, none, now⟩] } ∧
    getParticipant { db with participants :=
      db.participants ++ [⟨C, uid, true, none, now⟩] } C uid =
      some ⟨C, uid, true, none, now⟩ ∧
    countRows { db with participants :=
      db.participants ++ [⟨C, uid, true, none, now⟩] } C uid = 1 := by
  have hf : db.participants.filter (rowKey C uid) = [] := by
    simpa [countRows, List.length_eq_zero] using hc
  refine ⟨by simp [add_participant_to_call, h, hs', hf], ?_, ?_⟩
  · show (db.participants ++ [(⟨C, uid, true, none, now⟩ : Participant)]).find?
      (rowKey C uid) = _
    rw [find?_eq_head?_filter, List.filter_append, hf]
    simp [rowKey]
  · show ((db.participants ++ [(⟨C, uid, true, none, now⟩ : Participant)]).filter
      (rowKey C uid)).length = 1
    rw [List.filter_append, hf]
    simp [rowKey]

theorem add_when_present (db : DB) (C : String) (u : UserRef) (uid now : Nat)
    (p : Participant) (h : u.id = some uid) (hs' : C ∈ db.sessions)
    (hc : countRows db C uid = 1) (hp : getParticipant db C uid = some p) :
    add_participant_to_call db C u now =
      .ok { db with participants := db.participants.map (updActive true C uid) } ∧
    getParticipant
      { db with participants := db.participants.map (updActive true C uid) }
      C uid = some { p with is_active := true } ∧
    countRows
      { db with participants := db.participants.map (updActive true C uid) }
      C uid = 1 := by
  obtain ⟨q, hf, hq, hqkey⟩ := getParticipant_of_count_one db C uid hc
  have hpq : p = q := by
    rw [hp] at hq
    exact (Option.some.injEq _ _).mp hq
  subst hpq
  refine ⟨by simp [add_participant_to_call, h, hs', hf], ?_, ?_⟩
  · rw [getParticipant_map_updActive, hp]
    simp [updActive, hqkey]
  · rw [countRows_map_updActive]
    exact hc

theorem remove_sets_inactive (db : DB) (C : String) (u : UserRef) (uid : Nat)
    (p : Participant) (h : u.id = some uid) (hc : countRows db C uid = 1)
    (hp : getParticipant db C uid = some p) :
    remove_participant_from_call db C u =
      .ok { db with participants := db.participants.map (updActive false C uid) } ∧
    getParticipant
      { db with participants := db.participants.map (updActive false C uid) }
      C uid = some { p with is_active := false } ∧
    (p.is_active = false →
      ({ db with participants := db.participants.map (updActive false C uid) } : DB) = db) := by
  obtain ⟨q, hf, hq, hqkey⟩ := getParticipant_of_count_one db C uid hc
  have hpq : p = q := by
    rw [hp] at hq
    exact (Option.some.injEq _ _).mp hq
  subst hpq
  refine ⟨by simp [remove_participant_from_call, h, hf], ?_, ?_⟩
  · rw [getParticipant_map_updActive, hp]
    simp [updActive, hqkey]
  · intro hin
    have hmap : db.participants.map (updActive false C uid) = db.participants := by
      apply map_updActive_id
      intro r hr hkr
      have hrf : r ∈ db.participants.filter (rowKey C uid) :=
        List.mem_filter.mpr ⟨hr, hkr⟩
      rw [hf] at hrf
      rw [List.mem_singleton.mp hrf]
      exact hin
    rw [hmap]

/-- C4 (amended): `ensure_participant` is idempotent — two invocations
in sequence leave exactly one participant row for `(C, U)` with
`active = true` — but reactivating a row that had `active = false`
does not clear its left-timestamp: `left_at` keeps whatever value the
row already had (for a freshly created row that value is `none`). -/
theorem ensure_participant_idempotent_keeps_left_at :
    ∀ (db : DB) (C : String) (u : UserRef) (uid t1 t2 : Nat),
    u.id = some uid → db.sessions.contains C = true → countRows db C uid ≤ 1 →
    ∃ db1 db2, add_participant_to_call db C u t1 = .ok db1 ∧
      add_participant_to_call db1 C u t2 = .ok db2 ∧
      countRows db2 C uid = 1 ∧
      ∃ q, getParticipant db2 C uid = some q ∧ q.is_active = true ∧
        (∀ p, getParticipant db C uid = some p → q.left_at = p.left_at) ∧
        (getParticipant db C uid = none → q.left_at = none) := by
  intro db C u uid t1 t2 h hs hc
  have hs' : C ∈ db.sessions := by simpa using hs
  cases hc0 : countRows db C uid with
  | zero =>
    obtain ⟨ha1, hg1, hc1⟩ := add_when_absent db C u uid t1 h hs' hc0
    obtain ⟨ha2, hg2, hc2⟩ := add_when_present
      { db with participants := db.participants ++ [⟨C, uid, true, none, t1⟩] }
      C u uid t2 ⟨C, uid, true, none, t1⟩ h hs' hc1 hg1
    refine ⟨_, _, ha1, ha2, hc2, ⟨C, uid, true, none, t1⟩, hg2, rfl, ?_, fun _ => rfl⟩
    intro p hp
    have hnone : getParticipant db C uid = none := by
      have hf : db.participants.filter (rowKey C uid) = [] := by
        simpa [countRows, List.length_eq_zero] using hc0
      unfold getParticipant
      rw [find?_eq_head?_filter, hf]
      rfl
    rw [hnone] at hp
    cases hp
  | succ n =>
    have hc1 : countRows db C uid = 1 := by omega
    obtain ⟨q, hf, hq, hqkey⟩ := getParticipant_of_count_one db C uid hc1
    obtain ⟨ha1, hg1, hcc1⟩ := add_when_present db C u uid t1 q h hs' hc1 hq
    obtain ⟨ha2, hg2, hcc2⟩ := add_when_present
      { db with participants := db.participants.map (updActive true C uid) }
      C u uid t2 { q with is_active := true } h hs' hcc1 hg1
    refine ⟨_, _, ha1, ha2, hcc2, { q with is_active := true }, hg2, rfl, ?_, ?_⟩
    · intro p hp
      rw [hq] at hp
      have hpq : p = q := ((Option.some.injEq _ _).mp hp).symm
      rw [hpq]
    · intro hn
      rw [hq] at hn
      cases hn

/-- C4 witness: Alice rejoining call `c1` where her row is inactive
with `left_at = some 5`. -/
theorem ensure_participant_idempotent_keeps_left_at_witness :
    alice.id = some 1 ∧ dbLeft.sessions.contains "c1" = true ∧
    countRows dbLeft "c1" 1 ≤ 1 ∧
    (∃ db1 db2, add_participant_to_call dbLeft "c1" alice 9 = .ok db1 ∧
      add_participant_to_call db1 "c1" alice 10 = .ok db2 ∧
      countRows db2 "c1" 1 = 1 ∧
      ∃ q, getParticipant db2 "c1" 1 = some q ∧ q.is_active = true ∧
        (∀ p, getParticipant dbLeft "c1" 1 = some p → q.left_at = p.left_at) ∧
        (getParticipant dbLeft "c1" 1 = none → q.left_at = none)) :=
  ⟨rfl, by decide, by decide,
    ensure_participant_idempotent_keeps_left_at dbLeft "c1" alice 1 9 10 rfl
      (by decide) (by decide)⟩

/-- C4 counterexample: the claim says reactivation clears the
left-timestamp; reactivating Alice's row that had `left_at = some 5`
leaves `left_at = some 5`. -/
theorem ensure_participant_does_not_clear_left_at :
    add_participant_to_call dbLeft "c1" alice 9 =
      .ok (⟨["c1"], [⟨"c1", 1, true, some 5, 0⟩]⟩ : DB) ∧
    ((getParticipant (⟨["c1"], [⟨"c1", 1, true, some 5, 0⟩]⟩ : DB) "c1" 1).map
      (fun p => p.left_at)) = some (some 5) :=
  ⟨rfl, rfl⟩

/-- C5 (amended): `mark_left` sets the row's `active` flag to false,
but it does not write the left-timestamp at all — the operation has no
notion of the current time and `left_at` keeps its previous value;
marking an already-left participant is a no-op on the store. -/
theorem mark_left_deactivates_without_timestamp :
    ∀ (db : DB) (C : String) (u : UserRef) (uid : Nat) (p : Participant),
    u.id = some uid → countRows db C uid = 1 → getParticipant db C uid = some p →
    ∃ db', remove_participant_from_call db C u = .ok db' ∧
      getParticipant db' C uid = some { p with is_active := false } ∧
      (p.is_active = false → db' = db) := by
  intro db C u uid p h hc hp
  obtain ⟨h1, h2, h3⟩ := remove_sets_inactive db C u uid p h hc hp
  exact ⟨_, h1, h2, h3⟩

/-- C5 witness: Alice leaving call `c1` in the two-member store. -/
theorem mark_left_deactivates_without_timestamp_witness :
    alice.id = some 1 ∧ countRows twoWorld.db "c1" 1 = 1 ∧
    getParticipant twoWorld.db "c1" 1 = some ⟨"c1", 1, true, none, 0⟩ ∧
    (∃ db', remove_participant_from_call twoWorld.db "c1" alice = .ok db' ∧
      getParticipant db' "c1" 1 =
        some { (⟨"c1", 1, true, none, 0⟩ : Participant) with is_active := false } ∧
      ((⟨"c1", 1, true, none, 0⟩ : Participant).is_active = false → db' = twoWorld.db)) :=
  ⟨rfl, by decide, rfl,
    mark_left_deactivates_without_timestamp twoWorld.db "c1" alice 1
      ⟨"c1", 1, true, none, 0⟩ rfl (by decide) rfl⟩

/-- C5 counterexample: the claim says `mark_left` sets the
left-timestamp to the current time; after Alice leaves, her row is
inactive but `left_at` is still unset (`none`). -/
theorem mark_left_leaves_timestamp_unset :
    remove_participant_from_call twoWorld.db "c1" alice =
      .ok (⟨["c1"], [⟨"c1", 1, false, none, 0⟩, ⟨"c1", 2, true, none, 0⟩]⟩ : DB) ∧
    ((getParticipant (⟨["c1"],
        [⟨"c1", 1, false, none, 0⟩, ⟨"c1", 2, true, none, 0⟩]⟩ : DB) "c1" 1).map
      (fun p => (p.is_active, p.left_at))) = some (false, none) :=
  ⟨rfl, rfl⟩

/-- C8 (amended): a second teardown of the same connection raises no
error and does not change the participant rows any further, but it is
not a no-op: the `user_left` broadcast is emitted again, so every
remaining member receives an additional leave notification. -/
theorem duplicate_close_ok_but_rebroadcasts :
    ∀ (w : World) (c : Conn) (uid : Nat) (d : String) (du : UserRef),
    c.user.id = some uid → countRows w.db c.callId uid ≤ 1 →
    d ∈ groupChans w.groups (callGroupName c.callId) → (d == c.channelName) = false →
    resolveUser w.conns d = some du →
    ∃ w1 w2 l, disconnect w c = .ok w1 ∧ disconnect w1 c = .ok w2 ∧
      w2.sent = w1.sent ++ l ∧
      (d, OutMsg.user_left (pyStr c.user.id) c.user.username) ∈ l := by
  intro w c uid d du h hc hch hne hru
  obtain ⟨db1, hok1, hcnt1⟩ := remove_ok_of_le_one w.db c.callId c.user uid h hc
  have hle1 : countRows db1 c.callId uid ≤ 1 := by
    rw [hcnt1]
    exact hc
  obtain ⟨db2, hok2, _⟩ := remove_ok_of_le_one db1 c.callId c.user uid h hle1
  refine ⟨_, _, _, disconnect_eq w c db1 hok1, disconnect_eq _ c db2 hok2, rfl, ?_⟩
  refine fanout_mem _ _ _ _ du _ ?_ hru rfl
  show d ∈ groupChans (groupDiscard w.groups (callGroupName c.callId) c.channelName)
    (callGroupName c.callId)
  rw [groupChans_groupDiscard]
  exact List.mem_filter.mpr ⟨hch, by simp [bne, hne]⟩

/-- C8 witness: Alice's connection in the two-member call torn down
twice; Bob is the remaining member. -/
theorem duplicate_close_ok_but_rebroadcasts_witness :
    connA.user.id = some 1 ∧ countRows twoWorld.db connA.callId 1 ≤ 1 ∧
    "chB" ∈ groupChans twoWorld.groups (callGroupName connA.callId) ∧
    (("chB" : String) == connA.channelName) = false ∧
    resolveUser twoWorld.conns "chB" = some bob ∧
    (∃ w1 w2 l, disconnect twoWorld connA = .ok w1 ∧ disconnect w1 connA = .ok w2 ∧
      w2.sent = w1.sent ++ l ∧
      ("chB", OutMsg.user_left (pyStr connA.user.id) connA.user.username) ∈ l) :=
  ⟨rfl, by decide, by decide, by decide, by decide,
    duplicate_close_ok_but_rebroadcasts twoWorld connA 1 "chB" bob rfl
      (by decide) (by decide) (by decide) (by decide)⟩

/-- C8 counterexample: the claim says a duplicate close produces no
additional leave broadcast; after one teardown Bob has received one
`user_left`, after the duplicate teardown he has received two. -/
theorem duplicate_close_sends_second_user_left :
    ((sentAfter (disconnect twoWorld connA)).filter
      (fun (x : String × OutMsg) => x.1 == "chB" && isUserLeftMsg x.2)).length = 1 ∧
    (twiceDisconnected.filter
      (fun (x : String × OutMsg) => x.1 == "chB" && isUserLeftMsg x.2)).length = 2 :=
  ⟨by decide, by decide⟩

/-- C10: tearing down one of a user's live connections marks the
user's participant row inactive unconditionally — even while another
live connection of the same user is still registered in the call's
group (one device disconnecting deactivates the durable record). -/
theorem single_device_disconnect_deactivates_row :
    ∀ (w : World) (c d : Conn) (uid : Nat) (p : Participant),
    c.user.id = some uid → countRows w.db c.callId uid = 1 →
    getParticipant w.db c.callId uid = some p → p.is_active = true →
    d ∈ w.conns → d.user = c.user → d.channelName ≠ c.channelName →
    d.channelName ∈ groupChans w.groups (callGroupName c.callId) →
    ∃ w', disconnect w c = .ok w' ∧
      getParticipant w'.db c.callId uid = some { p with is_active := false } := by
  intro w c d uid p h hc hp _ _ _ _ _
  obtain ⟨h1, h2, _⟩ := remove_sets_inactive w.db c.callId c.user uid p h hc hp
  exact ⟨_, disconnect_eq w c _ h1, h2⟩

/-- C10 witness: Alice connected on two devices (`chA`, `chA2`); the
teardown of `chA` alone deactivates her row while `chA2` is still in
the group. -/
theorem single_device_disconnect_deactivates_row_witness :
    connA.user.id = some 1 ∧ countRows multiDeviceWorld.db connA.callId 1 = 1 ∧
    getParticipant multiDeviceWorld.db connA.callId 1 = some ⟨"c1", 1, true, none, 0⟩ ∧
    (⟨"c1", 1, true, none, 0⟩ : Participant).is_active = true ∧
    connA2 ∈ multiDeviceWorld.conns ∧ connA2.user = connA.user ∧
    connA2.channelName ≠ connA.channelName ∧
    connA2.channelName ∈ groupChans multiDeviceWorld.groups (callGroupName connA.callId) ∧
    (∃ w', disconnect multiDeviceWorld connA = .ok w' ∧
      getParticipant w'.db connA.callId 1 =
        some { (⟨"c1", 1, true, none, 0⟩ : Participant) with is_active := false }) :=
  ⟨rfl, by decide, rfl, rfl, by decide, rfl, by decide, by decide,
    single_device_disconnect_deactivates_row multiDeviceWorld connA connA2 1
      ⟨"c1", 1, true, none, 0⟩ rfl (by decide) rfl rfl (by decide) rfl (by decide)
      (by decide)⟩
